import Mathlib

/-
Shallow embedding of the two source files of the JS_WriteUps repository,
src/functionsWriteUp.js and src/objectsWriteUp.js, together with theorems
settling the specification claims about them.
-/

/-! ### The async/await try/catch example (functionsWriteUp.js, lines 197-217) -/

/-- A JavaScript Error value: a name and a message. -/
structure JsError where
  name : String
  message : String
deriving DecidableEq

/-- A console event produced by the example code: a console.log line or a
console.error line carrying an Error value. -/
inductive ConsoleEvent where
  | log (s : String)
  | errorEv (e : JsError)
deriving DecidableEq

/-- functionsWriteUp.js lines 198-200: `async function thisThrows()` throws an
Error with message "Thrown from thisThrows()".  An async function that throws
produces a rejected promise, embedded here as `Except.error`. -/
def thisThrows : Except JsError Unit :=
  Except.error ⟨"Error", "Thrown from thisThrows()"⟩

/-- functionsWriteUp.js lines 202-210, parameterised over the result of the
awaited call: `try { await ... } catch (e) { console.error(e); } finally
{ console.log("We do cleanup here"); }`.  Awaiting a rejected promise throws
its error, which the catch block receives and logs; the finally block then
logs its message in every case.  Returns the console events in order. -/
def runWith (awaited : Except JsError Unit) : List ConsoleEvent :=
  (match awaited with
    | Except.error e => [ConsoleEvent.errorEv e]
    | Except.ok _ => []) ++ [ConsoleEvent.log "We do cleanup here"]

/-- functionsWriteUp.js line 212: `run()`, whose body awaits `thisThrows()`. -/
def run : List ConsoleEvent := runWith thisThrows

/-- C1: every call of run() makes the asynchronous rejection of thisThrows()
observable in the catch block: the console output is exactly a console.error
of an Error whose message is "Thrown from thisThrows()", followed by the
finally output. -/
theorem run_catch_observes_thisThrows_rejection :
    run = [ConsoleEvent.errorEv ⟨"Error", "Thrown from thisThrows()"⟩,
           ConsoleEvent.log "We do cleanup here"] := rfl

/-- C2: for every outcome of the awaited call — rejection or normal return —
the finally block of run() executes, logging "We do cleanup here", and that
log line comes after any catch output (it is the last console event). -/
theorem runWith_finally_always_runs_last (awaited : Except JsError Unit) :
    ConsoleEvent.log "We do cleanup here" ∈ runWith awaited ∧
    (runWith awaited).getLast? = some (ConsoleEvent.log "We do cleanup here") := by
  cases awaited <;> exact ⟨by simp [runWith], rfl⟩

/-! ### Top-level statements of both files
Each entry records, in source order: the starting line, the syntactic kind,
the name it declares at top level (if any), whether evaluating the statement
performs a function invocation, and how many try/catch statements its body
contains. -/

/-- Syntactic kind of a top-level statement or declaration. -/
inductive StmtKind where
  | functionDecl
  | asyncFunctionDecl
  | constNamedFunExpr
  | constAnonFunExpr
  | constArrowFun
  | constAsyncArrow
  | constObjectLiteral
  | constNewExpr
  | constBuiltinCall
  | classDecl
  | callStmt
  | iifeStmt
  | chainCallStmt
  | protoAssign
deriving DecidableEq

/-- A top-level statement of a source file. -/
structure TLStmt where
  line : Nat
  kind : StmtKind
  declares : Option String
  invokes : Bool
  tryCount : Nat
deriving DecidableEq

/-- Whether the kind introduces a lexical (const or class) binding, subject
to the ECMAScript early error on duplicate lexical declarations. -/
def isLexical : StmtKind → Bool
  | StmtKind.constNamedFunExpr => true
  | StmtKind.constAnonFunExpr => true
  | StmtKind.constArrowFun => true
  | StmtKind.constAsyncArrow => true
  | StmtKind.constObjectLiteral => true
  | StmtKind.constNewExpr => true
  | StmtKind.constBuiltinCall => true
  | StmtKind.classDecl => true
  | _ => false

/-- The top-level statements of src/functionsWriteUp.js, in order. -/
def functionsWriteUpStmts : List TLStmt := [
  ⟨18, StmtKind.callStmt, none, true, 0⟩,
  ⟨20, StmtKind.functionDecl, some "myFunction", false, 0⟩,
  ⟨36, StmtKind.constNamedFunExpr, some "myFunction", false, 0⟩,
  ⟨41, StmtKind.constAnonFunExpr, some "myFunction", false, 0⟩,
  ⟨46, StmtKind.callStmt, none, true, 0⟩,
  ⟨60, StmtKind.iifeStmt, none, true, 0⟩,
  ⟨65, StmtKind.iifeStmt, none, true, 0⟩,
  ⟨79, StmtKind.functionDecl, some "outerFunction", false, 0⟩,
  ⟨85, StmtKind.functionDecl, some "callbackFunction", false, 0⟩,
  ⟨89, StmtKind.callStmt, none, true, 0⟩,
  ⟨101, StmtKind.constArrowFun, some "myFunction", false, 0⟩,
  ⟨105, StmtKind.constArrowFun, some "myFunction", false, 0⟩,
  ⟨109, StmtKind.constArrowFun, some "myFunction", false, 0⟩,
  ⟨114, StmtKind.functionDecl, some "myFunction", false, 0⟩,
  ⟨118, StmtKind.callStmt, none, true, 0⟩,
  ⟨122, StmtKind.callStmt, none, true, 0⟩,
  ⟨126, StmtKind.callStmt, none, true, 0⟩,
  ⟨130, StmtKind.callStmt, none, true, 0⟩,
  ⟨143, StmtKind.functionDecl, some "myFunction", false, 0⟩,
  ⟨153, StmtKind.chainCallStmt, none, true, 0⟩,
  ⟨177, StmtKind.asyncFunctionDecl, some "myFunction", false, 0⟩,
  ⟨184, StmtKind.constAsyncArrow, some "myFunction", false, 0⟩,
  ⟨198, StmtKind.asyncFunctionDecl, some "thisThrows", false, 0⟩,
  ⟨202, StmtKind.asyncFunctionDecl, some "run", false, 1⟩,
  ⟨212, StmtKind.callStmt, none, true, 0⟩]

/-- The top-level statements of src/objectsWriteUp.js, in order. -/
def objectsWriteUpStmts : List TLStmt := [
  ⟨5, StmtKind.constObjectLiteral, some "obj", false, 0⟩,
  ⟨28, StmtKind.functionDecl, some "ConsObj", false, 0⟩,
  ⟨35, StmtKind.protoAssign, none, false, 0⟩,
  ⟨39, StmtKind.constNewExpr, some "obj2", true, 0⟩,
  ⟨60, StmtKind.constObjectLiteral, some "inheritedPrototypes", false, 0⟩,
  ⟨67, StmtKind.constBuiltinCall, some "obj3", true, 0⟩,
  ⟨90, StmtKind.classDecl, some "ObjClass", false, 0⟩,
  ⟨102, StmtKind.constNewExpr, some "obj4", true, 0⟩,
  ⟨121, StmtKind.classDecl, some "ObjClass2", false, 0⟩,
  ⟨135, StmtKind.constNewExpr, some "obj5", true, 0⟩]

/-- The two source files of the repository. -/
def repoFiles : List (List TLStmt) := [functionsWriteUpStmts, objectsWriteUpStmts]

/-- Whether a list of names has a duplicate. -/
def hasDup : List String → Bool
  | [] => false
  | x :: xs => xs.contains x || hasDup xs

/-- Names bound by lexical (const/class) top-level declarations. -/
def lexicalNames (stmts : List TLStmt) : List String :=
  (stmts.filter (fun s => isLexical s.kind)).filterMap TLStmt.declares

/-- Names bound by top-level function declarations. -/
def functionDeclNames (stmts : List TLStmt) : List String :=
  (stmts.filter (fun s => s.kind == StmtKind.functionDecl
      || s.kind == StmtKind.asyncFunctionDecl)).filterMap TLStmt.declares

/-- ECMAScript early-error rule for scripts: it is a SyntaxError for the
lexically declared names to contain a duplicate, or to also occur among the
var-scoped (function) declared names.  Such a file fails to parse. -/
def earlyError (stmts : List TLStmt) : Bool :=
  hasDup (lexicalNames stmts)
    || (lexicalNames stmts).any (fun n => (functionDeclNames stmts).contains n)

/-- Loading a file: if the early-error rule fires, the file fails at parse
time and no statement executes; otherwise every top-level statement runs. -/
def loadFile (stmts : List TLStmt) : List TLStmt :=
  if earlyError stmts then [] else stmts

/-- C3 counterexample: it is not the case that every source file, when
loaded, performs no top-level invocation — loading src/objectsWriteUp.js
(which has no duplicate declarations, so it parses) executes top-level
statements that invoke functions, e.g. `const obj2 = new ConsObj()` at
line 39. -/
theorem loading_repo_files_invokes_functions :
    ¬ (∀ f ∈ repoFiles, (loadFile f).all (fun s => !s.invokes) = true) := by
  decide

/-- C3 amended: src/objectsWriteUp.js loads successfully and performs
top-level function invocations, while src/functionsWriteUp.js, although it
contains top-level call statements textually, executes none of them because
its repeated const redeclaration of myFunction is a load-time SyntaxError. -/
theorem objects_file_invokes_functions_file_unparsable :
    earlyError functionsWriteUpStmts = true ∧
    loadFile functionsWriteUpStmts = [] ∧
    functionsWriteUpStmts.any TLStmt.invokes = true ∧
    earlyError objectsWriteUpStmts = false ∧
    (loadFile objectsWriteUpStmts).any TLStmt.invokes = true := by
  decide

/-- C5: across both files there is exactly one try/catch construct, and it
is the one inside the async function run() declared at line 202 of
src/functionsWriteUp.js. -/
theorem single_try_catch_in_run :
    (((functionsWriteUpStmts ++ objectsWriteUpStmts).map TLStmt.tryCount).sum = 1) ∧
    (functionsWriteUpStmts ++ objectsWriteUpStmts).filter (fun s => s.tryCount != 0)
      = [⟨202, StmtKind.asyncFunctionDecl, some "run", false, 1⟩] := by
  decide

/-- The top-level declarations of src/functionsWriteUp.js binding the name
myFunction. -/
def myFunctionDecls : List TLStmt :=
  functionsWriteUpStmts.filter (fun s => s.declares == some "myFunction")

/-- C6: the name myFunction is bound by ten top-level declarations of
src/functionsWriteUp.js — among them function declarations, const function
expressions (named and anonymous), const arrow functions, and async forms —
and the duplicate bindings trigger the early error, so the snippets are
mutually inconsistent as a single program. -/
theorem myFunction_redeclared_many_times :
    myFunctionDecls.length = 10 ∧
    2 ≤ myFunctionDecls.length ∧
    (myFunctionDecls.map TLStmt.kind).contains StmtKind.functionDecl = true ∧
    (myFunctionDecls.map TLStmt.kind).contains StmtKind.constNamedFunExpr = true ∧
    (myFunctionDecls.map TLStmt.kind).contains StmtKind.constAnonFunExpr = true ∧
    (myFunctionDecls.map TLStmt.kind).contains StmtKind.constArrowFun = true ∧
    (myFunctionDecls.map TLStmt.kind).contains StmtKind.asyncFunctionDecl = true ∧
    (myFunctionDecls.map TLStmt.kind).contains StmtKind.constAsyncArrow = true ∧
    earlyError functionsWriteUpStmts = true := by
  decide

/-! ### Snippets of both files
Each file is divided into the sections marked by its header comments.  For
each snippet we record the top-level names it declares, the free snippet-level
identifiers it references (identifiers bound inside a snippet — parameters,
local variables, names of named function expressions — are not free and do
not appear), and the externally visible effects its code performs. -/

/-- An externally visible effect a snippet could perform. -/
inductive Effect where
  | consoleLog
  | consoleError
  | fileSystemWrite
  | networkRequest
  | storageWrite
deriving DecidableEq

/-- Whether an effect is a console output. -/
def isConsoleEffect : Effect → Bool
  | Effect.consoleLog => true
  | Effect.consoleError => true
  | _ => false

/-- A snippet: one titled section of a source file. -/
structure Snippet where
  file : String
  title : String
  decls : List String
  refs : List String
  effects : List Effect
deriving DecidableEq

/-- The language built-ins referenced by the snippets. -/
def builtins : List String := ["Promise", "Object", "Error", "console"]

/-- functionsWriteUp.js lines 16-32. -/
def snipFunctionDecls : Snippet :=
  ⟨"functionsWriteUp.js", "Function Declarations", ["myFunction"], ["myFunction"], []⟩

/-- functionsWriteUp.js lines 34-57. -/
def snipFunctionExprs : Snippet :=
  ⟨"functionsWriteUp.js", "Function Expressions", ["myFunction"], ["myFunction"], []⟩

/-- functionsWriteUp.js lines 59-75. -/
def snipIIFE : Snippet :=
  ⟨"functionsWriteUp.js", "IIFE", [], [], []⟩

/-- functionsWriteUp.js lines 77-95. -/
def snipCallback : Snippet :=
  ⟨"functionsWriteUp.js", "Callback Function",
   ["outerFunction", "callbackFunction"], ["outerFunction", "callbackFunction"], []⟩

/-- functionsWriteUp.js lines 97-140. -/
def snipArrowFuns : Snippet :=
  ⟨"functionsWriteUp.js", "Arrow Functions", ["myFunction"], ["myFunction"], []⟩

/-- functionsWriteUp.js lines 142-172: `if (x) { resolve(data); } else
{ reject(error); }` references x, data and error, which no snippet
declares. -/
def snipPromises : Snippet :=
  ⟨"functionsWriteUp.js", "Function Promises",
   ["myFunction"], ["myFunction", "Promise", "x", "data", "error"], []⟩

/-- functionsWriteUp.js lines 174-195. -/
def snipAsyncFuns : Snippet :=
  ⟨"functionsWriteUp.js", "Async Functions", ["myFunction"], [], []⟩

/-- functionsWriteUp.js lines 197-217: run() calls console.error and
console.log. -/
def snipTryCatch : Snippet :=
  ⟨"functionsWriteUp.js", "try...catch async-await function example",
   ["thisThrows", "run"], ["thisThrows", "run", "Error", "console"],
   [Effect.consoleError, Effect.consoleLog]⟩

/-- objectsWriteUp.js lines 4-25. -/
def snipObjectLiterals : Snippet :=
  ⟨"objectsWriteUp.js", "Object Literals", ["obj"], [], []⟩

/-- objectsWriteUp.js lines 27-57. -/
def snipConstructorFuns : Snippet :=
  ⟨"objectsWriteUp.js", "Constructor Functions", ["ConsObj", "obj2"], ["ConsObj"], []⟩

/-- objectsWriteUp.js lines 59-86. -/
def snipObjectCreate : Snippet :=
  ⟨"objectsWriteUp.js", "Object.create()",
   ["inheritedPrototypes", "obj3"], ["inheritedPrototypes", "Object"], []⟩

/-- objectsWriteUp.js lines 88-118. -/
def snipClasses : Snippet :=
  ⟨"objectsWriteUp.js", "Classes", ["ObjClass", "obj4"], ["ObjClass"], []⟩

/-- objectsWriteUp.js lines 120-155: `class ObjClass2 extends ObjClass`
references ObjClass, which this snippet does not declare. -/
def snipSubClasses : Snippet :=
  ⟨"objectsWriteUp.js", "Sub Classes", ["ObjClass2", "obj5"], ["ObjClass2", "ObjClass"], []⟩

/-- All snippets of the repository, in file order. -/
def allSnippets : List Snippet :=
  [snipFunctionDecls, snipFunctionExprs, snipIIFE, snipCallback, snipArrowFuns,
   snipPromises, snipAsyncFuns, snipTryCatch,
   snipObjectLiterals, snipConstructorFuns, snipObjectCreate, snipClasses,
   snipSubClasses]

/-- A snippet is self-contained when every identifier it references is one
it declares itself or a language built-in. -/
def selfContained (s : Snippet) : Bool :=
  s.refs.all (fun r => s.decls.contains r || builtins.contains r)

/-- The identifiers a snippet references without declaring them (and that
are not built-ins). -/
def crossRefs (s : Snippet) : List String :=
  s.refs.filter (fun r => !(s.decls.contains r || builtins.contains r))

/-- C4 counterexample: not every snippet references only identifiers it
declares itself plus built-ins — the Sub Classes snippet references ObjClass,
which it does not declare and which is not a built-in, and which is declared
by the Classes snippet, so the two snippets are composed. -/
theorem subClasses_snippet_references_classes_snippet :
    (¬ allSnippets.all selfContained = true) ∧
    snipSubClasses ∈ allSnippets ∧
    selfContained snipSubClasses = false ∧
    "ObjClass" ∈ snipSubClasses.refs ∧
    "ObjClass" ∉ snipSubClasses.decls ∧
    "ObjClass" ∉ builtins ∧
    "ObjClass" ∈ snipClasses.decls := by
  decide

/-- C4 amended: every snippet references only identifiers it declares itself
plus language built-ins, with exactly two exceptions: the Function Promises
snippet references the undeclared placeholders x, data and error (declared
by no snippet at all), and the Sub Classes snippet references ObjClass,
declared by the Classes snippet, with which it is therefore composed. -/
theorem snippets_self_contained_except_two :
    (allSnippets.filter (fun s => !selfContained s)).map Snippet.title
      = ["Function Promises", "Sub Classes"] ∧
    crossRefs snipPromises = ["x", "data", "error"] ∧
    crossRefs snipSubClasses = ["ObjClass"] ∧
    "ObjClass" ∈ snipClasses.decls ∧
    allSnippets.all (fun s => !s.decls.contains "x"
      && !s.decls.contains "data" && !s.decls.contains "error") = true := by
  decide

/-- C7: no snippet touches any store outside program memory — the only
externally visible effects anywhere in the repository are console outputs
(the console.error and console.log calls of the try/catch example). -/
theorem snippets_only_console_effects :
    allSnippets.all (fun s => s.effects.all isConsoleEffect) = true := by
  decide

/-! ### Object.create with property descriptors (objectsWriteUp.js, lines 59-69) -/

/-- A JavaScript value as it appears in these snippets: undefined, a string,
or a function (identified by its name). -/
inductive JsVal where
  | undef
  | str (s : String)
  | fn (name : String)
deriving DecidableEq

/-- A property descriptor as written in source: each attribute may be
supplied or omitted. -/
structure DescriptorInput where
  value : Option JsVal
  writable : Option Bool
  enumerable : Option Bool
  configurable : Option Bool
deriving DecidableEq

/-- The resulting attributes of a defined data property. -/
structure PropertyAttrs where
  value : JsVal
  writable : Bool
  enumerable : Bool
  configurable : Bool
deriving DecidableEq

/-- ECMAScript ToPropertyDescriptor / CompletePropertyDescriptor for a data
descriptor: an absent value defaults to undefined and absent writable,
enumerable and configurable attributes default to false. -/
def completeDescriptor (d : DescriptorInput) : PropertyAttrs :=
  ⟨d.value.getD JsVal.undef, d.writable.getD false,
   d.enumerable.getD false, d.configurable.getD false⟩

/-- An object as produced by Object.create: its prototype's properties and
its own properties with their attributes. -/
structure CreatedObject where
  protoProps : List (String × JsVal)
  ownProps : List (String × PropertyAttrs)
deriving DecidableEq

/-- Object.create(proto, props): the new object's prototype is proto and
each entry of props defines an own property from its descriptor. -/
def Object_create (proto : List (String × JsVal))
    (props : List (String × DescriptorInput)) : CreatedObject :=
  ⟨proto, props.map (fun p => (p.1, completeDescriptor p.2))⟩

/-- objectsWriteUp.js lines 60-65: the prototype object with key1 and the
method key2. -/
def inheritedPrototypes : List (String × JsVal) :=
  [("key1", JsVal.str "value"), ("key2", JsVal.fn "myFunction")]

/-- objectsWriteUp.js lines 67-69: `Object.create(inheritedPrototypes,
{ key3: { value: "value" } })` — the descriptor supplies only a value. -/
def obj3 : CreatedObject :=
  Object_create inheritedPrototypes [("key3", ⟨some (JsVal.str "value"), none, none, none⟩)]

/-- C8: obj3 has exactly one own property, key3, with value "value", and it
is non-writable, non-enumerable and non-configurable, since the descriptor
supplied only a value and every attribute flag defaults to false. -/
theorem obj3_key3_own_nonwritable :
    obj3.ownProps = [("key3", ⟨JsVal.str "value", false, false, false⟩)] ∧
    obj3.ownProps.lookup "key3" = some ⟨JsVal.str "value", false, false, false⟩ := by
  decide

/-! ### The callback example (functionsWriteUp.js, lines 77-89)
The body of outerFunction is embedded as data and interpreted, so that
"invokes the callback exactly once" is a statement about the recorded
invocations, not a tautology. -/

/-- An expression occurring in the body of outerFunction. -/
inductive CbExpr where
  | lit (s : String)
  | varRef (n : String)
deriving DecidableEq

/-- A statement of the body of outerFunction: a let binding or a call of the
callback parameter. -/
inductive CbStmt where
  | letDecl (n : String) (e : CbExpr)
  | callCallback (e : CbExpr)
deriving DecidableEq

/-- functionsWriteUp.js lines 79-83: `let arg = "value"; callback(arg);`. -/
def outerFunctionBody : List CbStmt :=
  [CbStmt.letDecl "arg" (CbExpr.lit "value"),
   CbStmt.callCallback (CbExpr.varRef "arg")]

/-- Evaluate an expression in an environment of let bindings. -/
def evalCbExpr (env : List (String × String)) : CbExpr → String
  | CbExpr.lit s => s
  | CbExpr.varRef n => ((env.lookup n).getD "undefined")

/-- Execute a body, recording in order the argument of every invocation of
the callback parameter. -/
def callbackArgs (env : List (String × String)) : List CbStmt → List String
  | [] => []
  | CbStmt.letDecl n e :: rest => callbackArgs ((n, evalCbExpr env e) :: env) rest
  | CbStmt.callCallback e :: rest => evalCbExpr env e :: callbackArgs env rest

/-- outerFunction(callback): run the body, applying the passed callback to
each recorded invocation argument; the result lists one value per
invocation. -/
def outerFunction {α : Type} (callback : String → α) : List α :=
  (callbackArgs [] outerFunctionBody).map callback

/-- C9: whatever function value is passed as the callback argument,
outerFunction invokes it exactly once, with the single argument "value". -/
theorem outerFunction_calls_callback_once {α : Type} (callback : String → α) :
    outerFunction callback = [callback "value"] := rfl

/-! ### Classes and subclasses (objectsWriteUp.js, lines 88-135) -/

/-- A class declaration: its own constructor assignments (`this.k = v` in
order) and its prototype methods, either with no superclass or extending a
superclass. -/
inductive ClassD where
  | base (ctorAssigns : List (String × JsVal)) (methods : List String)
  | derived (parent : ClassD) (ctorAssigns : List (String × JsVal)) (methods : List String)
deriving DecidableEq

/-- objectsWriteUp.js lines 90-100: class ObjClass installs key1 and key2 in
its constructor and has prototype method myFunction2. -/
def ObjClass : ClassD :=
  ClassD.base [("key1", JsVal.str "value"), ("key2", JsVal.fn "myFunction")]
    ["myFunction2"]

/-- objectsWriteUp.js lines 121-133: class ObjClass2 extends ObjClass, first
runs super(), then installs key3 and key4; prototype method myFunction4. -/
def ObjClass2 : ClassD :=
  ClassD.derived ObjClass
    [("key3", JsVal.str "value"), ("key4", JsVal.fn "myFunction3")]
    ["myFunction4"]

/-- An instance: its own properties in installation order, and its prototype
chain as the list of method-name lists, nearest prototype first. -/
structure ClassInstance where
  ownProps : List (String × JsVal)
  protoChain : List (List String)
deriving DecidableEq

/-- `new C()`: a derived constructor first runs super(), which installs the
parent's own properties, then its own assignments; the prototype chain puts
the class prototype before the parent chain. -/
def instantiate : ClassD → ClassInstance
  | ClassD.base a m => ⟨a, [m]⟩
  | ClassD.derived p a m =>
      let parentInst := instantiate p
      ⟨parentInst.ownProps ++ a, m :: parentInst.protoChain⟩

/-- C10: every instance of new ObjClass2() has exactly the own properties
key1, key2, key3, key4 in that order — super() installs key1 and key2
first, then key3 and key4 are installed — while myFunction2 and myFunction4
are not own properties but live on the prototype chain. -/
theorem objClass2_instance_own_properties :
    (instantiate ObjClass2).ownProps.map Prod.fst = ["key1", "key2", "key3", "key4"] ∧
    (instantiate ObjClass2).ownProps
      = (instantiate ObjClass).ownProps
          ++ [("key3", JsVal.str "value"), ("key4", JsVal.fn "myFunction3")] ∧
    ((instantiate ObjClass2).ownProps.map Prod.fst).contains "myFunction2" = false ∧
    ((instantiate ObjClass2).ownProps.map Prod.fst).contains "myFunction4" = false ∧
    (instantiate ObjClass2).protoChain = [["myFunction4"], ["myFunction2"]] := by
  decide
